import Mathlib

/-!
Shallow embedding of `books_etl.py`: a batch ETL job that extracts book rows
updated since a cutoff date, derives pricing columns, and idempotently loads
them into a destination table inside retried transactions.

Modelling conventions:
- monetary values are exact decimals: a source `price` is an integer number of
  cents (hundredths) and a `rounded_price` an integer number of tenths;
  `pandas.Series.round(1)` becomes rounding cents to tenths, half to even
  (numpy's tie rule; on such inputs the library's float computation produces
  the same decimal, e.g. 499.95 rounds to 500.0).  `centsRat`/`tenthsRat`
  give the ℚ reading of the scaled integers for specification statements;
- database tables are lists of rows; SQL `DELETE ... WHERE book_id IN (...)`
  is a filter, bulk insert is an append;
- a transaction (`engine.begin()`) commits by returning the new table state and
  rolls back by returning the snapshot taken at its start;
- fallible database calls are driven by explicit error oracles, with the
  tenacity retry policy (`stop_after_attempt`, `retry_if_exception_type`,
  `reraise=True`) made explicit.
-/

namespace BooksEtl

/-- SQLAlchemy error classes relevant to the retry policy.
`operational` and `interfaceErr` model `OperationalError` / `InterfaceError`,
the two classes listed in both `retry_if_exception_type` calls. -/
inductive DbErr
  | operational
  | interfaceErr
  | integrityErr
  | programmingErr
deriving DecidableEq

/-- The retry predicate of both `@retry` decorators:
`retry_if_exception_type((OperationalError, InterfaceError))`. -/
def isTransient : DbErr → Bool
  | .operational => true
  | .interfaceErr => true
  | _ => false

/-- Python-level errors surfaced by the script: `ValueError` for bad
configuration/input, database errors from SQLAlchemy, and the `RuntimeError`
wrapper that `load_data` puts around failures. -/
inductive EtlError
  | valueError (msg : String)
  | dbError (e : DbErr)
  | runtimeError (e : DbErr)
deriving DecidableEq

/-- Calendar date, standing for the `datetime` produced by
`datetime.strptime(date_str, "%Y-%m-%d")` (time is always midnight) and for the
`last_updated` timestamps compared against it. -/
structure Date where
  year : Nat
  month : Nat
  day : Nat
deriving DecidableEq

/-- Chronological order on dates (used for `last_updated >= cutoff` and the
`ORDER BY last_updated ASC` part of the extraction query). -/
def dateLE (a b : Date) : Bool :=
  if a.year = b.year then
    if a.month = b.month then decide (a.day ≤ b.day)
    else decide (a.month ≤ b.month)
  else decide (a.year ≤ b.year)

/-- A row of the source table `books`.  `book_id` is `Option Int` because SQL
integer columns are nullable and `load_data` explicitly `dropna()`s them.
`price` is the monetary value in cents (hundredths of the unit). -/
structure Record where
  book_id : Option Int
  title : String
  price : Int
  genre : String
  stock_quantity : Int
  last_updated : Date
deriving DecidableEq

/-- A row after `transform_data`: `price` replaced by `original_price`
(cents), `rounded_price` (tenths of the unit) and `price_category`. -/
structure TransformedRecord where
  book_id : Option Int
  title : String
  genre : String
  stock_quantity : Int
  last_updated : Date
  original_price : Int
  rounded_price : Int
  price_category : String
deriving DecidableEq

/-- A row of the destination table `books_processed`
(the column list selected in `load_data`). -/
structure DestRow where
  book_id : Option Int
  title : String
  original_price : Int
  rounded_price : Int
  genre : String
  price_category : String
deriving DecidableEq

/-- The rational a cent count stands for: `c` cents is the price `c / 100`. -/
def centsRat (c : Int) : ℚ := (c : ℚ) / 100

/-- The rational a tenth count stands for: `t` tenths is the value `t / 10`. -/
def tenthsRat (t : Int) : ℚ := (t : ℚ) / 10

/-- `Series.round(1)` on a price in cents: round `c / 10` to the nearest
integer number of tenths, ties to even (numpy's rounding).  `ediv`/`emod`
give the quotient and the remainder `0 ≤ r < 10`. -/
def round1 (c : Int) : Int :=
  let q := Int.ediv c 10
  let r := Int.emod c 10
  if r < 5 then q
  else if 5 < r then q + 1
  else if Int.emod q 2 = 0 then q else q + 1

/-- The lambda in `transform_data`:
`"budget" if x < 500 else "premium"` applied to `rounded_price`
(500 units is 5000 tenths). -/
def price_category_of (tenths : Int) : String :=
  if tenths < 5000 then "budget" else "premium"

/-- Per-row effect of `transform_data`: copy `price` into `original_price`,
round it into `rounded_price`, categorise, drop `price`, pass the rest through. -/
def transformRecord (r : Record) : TransformedRecord :=
  { book_id := r.book_id
    title := r.title
    genre := r.genre
    stock_quantity := r.stock_quantity
    last_updated := r.last_updated
    original_price := r.price
    rounded_price := round1 r.price
    price_category := price_category_of (round1 r.price) }

/-- `transform_data`: the pure, row-wise mapping over a batch
(an empty input yields an empty output, as in the `df.empty` early return). -/
def transform_data (df : List Record) : List TransformedRecord :=
  df.map transformRecord

/-- The column projection `df[cols]` performed at the top of `load_data`. -/
def toDestRow (t : TransformedRecord) : DestRow :=
  { book_id := t.book_id
    title := t.title
    original_price := t.original_price
    rounded_price := t.rounded_price
    genre := t.genre
    price_category := t.price_category }

/-- `to_load["book_id"].dropna().astype(int).unique().tolist()`:
the distinct non-null book ids of the batch. -/
def uniqueBookIds (rows : List DestRow) : List Int :=
  (rows.filterMap (fun r => r.book_id)).dedup

/-- SQL `book_id IN :ids` evaluated at one destination row
(a NULL `book_id` never matches an IN-list). -/
def matchesIds (ids : List Int) (row : DestRow) : Bool :=
  match row.book_id with
  | none => false
  | some i => decide (i ∈ ids)

/-- `_delete_existing_processed`: delete every destination row whose
`book_id` is in the batch's id set. -/
def _delete_existing_processed (ids : List Int) (dest : List DestRow) : List DestRow :=
  dest.filter (fun r => ! matchesIds ids r)

/-- `_insert_processed` via `df.to_sql(..., if_exists="append")`: append the
batch rows one by one; `okP` is the destination's row-acceptance check (e.g.
constraint satisfaction) and a rejected row aborts the statement with an
`IntegrityError`-class failure. -/
def _insert_processed (okP : DestRow → Bool) (rows : List DestRow)
    (dest : List DestRow) : Except DbErr (List DestRow) :=
  match rows with
  | [] => .ok dest
  | r :: rs =>
    if okP r then _insert_processed okP rs (dest ++ [r])
    else .error .integrityErr

/-- One attempt of `_do_load`: the body of `with engine.begin() as conn:`.
`errF k` injects the database error (if any) that attempt `k` runs into;
otherwise the delete and the insert both execute on the snapshot. -/
def _do_load (okP : DestRow → Bool) (errF : Nat → Option DbErr)
    (ids : List Int) (rows : List DestRow) (dest : List DestRow)
    (k : Nat) : Except DbErr (List DestRow) :=
  match errF k with
  | some e => .error e
  | none => _insert_processed okP rows (_delete_existing_processed ids dest)

/-- The tenacity policy `stop_after_attempt(r)` with
`retry=retry_if_exception_type(...)` and `reraise=True`: run attempt `k`;
retry (with the next index) only while the error satisfies `trans` and more
attempts remain; return the last result together with the number of attempts
made. -/
def retryCall (trans : ε → Bool) (op : Nat → Except ε α)
    (k : Nat) : Nat → Except ε α × Nat
  | 0 => (op k, k + 1)
  | r + 1 =>
    match op k with
    | .ok a => (.ok a, k + 1)
    | .error e =>
      if trans e = true ∧ 0 < r then retryCall trans op (k + 1) r
      else (.error e, k + 1)

/-- Row-acceptance oracle of a destination table without failing constraints. -/
def okAll : DestRow → Bool := fun _ => true

/-- Error oracle of a run in which no attempt hits a database error. -/
def noFail : Nat → Option DbErr := fun _ => none

deriving instance DecidableEq for Except

/-- Result of one `load_data` call: the destination table it leaves behind,
the returned count (or raised error), and how many transactions were opened. -/
structure LoadResult where
  state : List DestRow
  result : Except EtlError Nat
  txCount : Nat
deriving DecidableEq

/-- `load_data`: return 0 for an empty batch or a batch with no non-null
`book_id`; otherwise run the delete+insert transaction under the write-retry
policy (`DB_WRITE_ATTEMPTS` attempts).  A failed transaction rolls back to the
snapshot, and an exhausted or non-transient error is wrapped in a
`RuntimeError` as in the `except SQLAlchemyError` clause. -/
def load_data (okP : DestRow → Bool) (errF : Nat → Option DbErr)
    (writeAttempts : Nat) (df : List TransformedRecord)
    (dest : List DestRow) : LoadResult :=
  if df.isEmpty then ⟨dest, .ok 0, 0⟩
  else if (uniqueBookIds (df.map toDestRow)).isEmpty then ⟨dest, .ok 0, 0⟩
  else
    match retryCall isTransient
        (_do_load okP errF (uniqueBookIds (df.map toDestRow)) (df.map toDestRow) dest)
        0 writeAttempts with
    | (.ok s, a) => ⟨s, .ok (df.map toDestRow).length, a⟩
    | (.error e, a) => ⟨dest, .error (.runtimeError e), a⟩

/-- Whether an `Except` is a success (`True`-branch of a `try`). -/
def exceptIsOk : Except ε α → Bool
  | .ok _ => true
  | .error _ => false

/-- The configuration surface read through `CFG(...)`: `none` is an absent
variable, `some v` a set one (possibly the empty string). -/
structure DbConfig where
  host : Option String
  port : Option String
  name : Option String
  user : Option String
  password : Option String
  chunksize : Option Int
  write_attempts : Option Nat
deriving DecidableEq

/-- A configuration with every variable absent. -/
def emptyCfg : DbConfig := ⟨none, none, none, none, none, none, none⟩

/-- The connection parameters after applying the defaults of the `CFG` calls
in `connect_to_db` (`DB_HOST` defaults to `"localhost"`, `DB_PORT` to
`"5432"`, `DB_NAME` to `"books_db"`, `DB_USER` and `DB_PASSWORD` to `""`). -/
structure ConnParams where
  host : String
  port : String
  name : String
  user : String
  password : String
deriving DecidableEq

/-- Resolve the configuration exactly as the `CFG(..., default=...)` calls do. -/
def resolveConnParams (cfg : DbConfig) : ConnParams :=
  { host := cfg.host.getD "localhost"
    port := cfg.port.getD "5432"
    name := cfg.name.getD "books_db"
    user := cfg.user.getD ""
    password := cfg.password.getD "" }

/-- `_required_env`: collect the required connection parameters whose resolved
value is falsy (the empty string) and raise a `ValueError` naming them. -/
def _required_env (host name user password : String) : Except String Unit :=
  let pairs : List (String × String) :=
    [("DB_HOST", host), ("DB_NAME", name), ("DB_USER", user), ("DB_PASSWORD", password)]
  let missing := (pairs.filter (fun kv => kv.2 == "")).map (fun kv => kv.1)
  if missing.isEmpty then .ok ()
  else .error ("required env var not set: " ++ String.intercalate ", " missing)

/-- Whether an error triggers the `@retry` of `connect_to_db`: only database
errors of a transient class do; a `ValueError` from `_required_env` does not. -/
def transientEtl : EtlError → Bool
  | .dbError e => isTransient e
  | _ => false

/-- One attempt of `connect_to_db`: resolve the configuration, check the
required parameters, then run the `SELECT 1` liveness probe (whose outcome on
attempt `k` is given by the oracle `probe`). -/
def connectAttempt (cfg : DbConfig) (probe : Nat → Except DbErr Unit)
    (k : Nat) : Except EtlError ConnParams :=
  match _required_env (resolveConnParams cfg).host (resolveConnParams cfg).name
      (resolveConnParams cfg).user (resolveConnParams cfg).password with
  | .error m => .error (.valueError m)
  | .ok _ =>
    match probe k with
    | .error e => .error (.dbError e)
    | .ok _ => .ok (resolveConnParams cfg)

/-- `connect_to_db` under its `@retry(stop=stop_after_attempt(3), ...)`
decorator; also returns the number of attempts made. -/
def connect_to_db (cfg : DbConfig) (probe : Nat → Except DbErr Unit) :
    Except EtlError ConnParams × Nat :=
  retryCall transientEtl (connectAttempt cfg probe) 0 3

/-- A liveness probe that always succeeds. -/
def probeOk : Nat → Except DbErr Unit := fun _ => .ok ()

/-- The `ORDER BY last_updated ASC, book_id ASC` comparison between two source
rows (SQL sorts NULL keys last in ascending order). -/
def recordLE (a b : Record) : Bool :=
  if a.last_updated = b.last_updated then
    match a.book_id, b.book_id with
    | none, none => true
    | none, some _ => false
    | some _, none => true
    | some i, some j => decide (i ≤ j)
  else dateLE a.last_updated b.last_updated

/-- Insert a row into a list sorted by `recordLE`. -/
def insertRec (a : Record) : List Record → List Record
  | [] => [a]
  | b :: l => if recordLE a b then a :: b :: l else b :: insertRec a l

/-- Stable sort of the result set by `(last_updated ASC, book_id ASC)`. -/
def sortRecords : List Record → List Record
  | [] => []
  | a :: l => insertRec a (sortRecords l)

/-- The extraction query shared by `extract_books` and `extract_books_iter`:
`SELECT ... FROM books WHERE last_updated >= cutoff ORDER BY last_updated ASC,
book_id ASC`, evaluated over a snapshot of the source table. -/
def extract_books (source : List Record) (cutoff : Date) : List Record :=
  sortRecords (source.filter (fun r => dateLE cutoff r.last_updated))

/-- Fuelled worker for `chunksOf` (structural recursion on the fuel so that
concrete chunkings evaluate). -/
def chunksOfAux (n : Nat) : List α → Nat → List (List α)
  | [], _ => []
  | _ :: _, 0 => []
  | l, fuel + 1 =>
    if n = 0 then []
    else l.take n :: chunksOfAux n (l.drop n) fuel

/-- Split a list into consecutive chunks of `n` elements (the batches that
`pd.read_sql_query(..., chunksize=n)` yields for the same ordered query). -/
def chunksOf (n : Nat) (l : List α) : List (List α) :=
  chunksOfAux n l l.length

/-- `extract_books_iter`: the same query consumed in chunks. -/
def extract_books_iter (source : List Record) (cutoff : Date) (chunksize : Nat) :
    List (List Record) :=
  chunksOf chunksize (extract_books source cutoff)

/-- The chunked loop of `main`: skip empty chunks, otherwise transform and
load; a load error aborts the loop (the destination keeps the batches already
committed).  Returns the final destination and either the
`(extracted_total, loaded_total)` counters or the error. -/
def runChunks (okP : DestRow → Bool) (errF : Nat → Option DbErr) (wa : Nat) :
    List (List Record) → List DestRow → List DestRow × Except EtlError (Nat × Nat)
  | [], dest => (dest, .ok (0, 0))
  | c :: cs, dest =>
    if c.isEmpty then runChunks okP errF wa cs dest
    else
      match (load_data okP errF wa (transform_data c) dest).result with
      | .error e => ((load_data okP errF wa (transform_data c) dest).state, .error e)
      | .ok k =>
        match runChunks okP errF wa cs ((load_data okP errF wa (transform_data c) dest).state) with
        | (d2, .ok p) => (d2, .ok (c.length + p.1, k + p.2))
        | (d2, .error e) => (d2, .error e)

/-- The whole-table branch of `main` (`chunksize <= 0`): one extract, one
transform, one load. -/
def runWhole (okP : DestRow → Bool) (errF : Nat → Option DbErr) (wa : Nat)
    (source : List Record) (cutoff : Date) (dest : List DestRow) :
    List DestRow × Except EtlError (Nat × Nat) :=
  if (extract_books source cutoff).isEmpty then (dest, .ok (0, 0))
  else
    match (load_data okP errF wa (transform_data (extract_books source cutoff)) dest).result with
    | .error e =>
      ((load_data okP errF wa (transform_data (extract_books source cutoff)) dest).state, .error e)
    | .ok k =>
      ((load_data okP errF wa (transform_data (extract_books source cutoff)) dest).state,
       .ok ((extract_books source cutoff).length, k))

/-- The destination state a single successful load of the whole list `l`
leaves behind (`l = []` loads nothing).  Reference point for comparing the
chunked and the whole-table execution modes. -/
def wholeF (wa : Nat) (l : List Record) (dest : List DestRow) : List DestRow :=
  if l.isEmpty then dest
  else (load_data okAll noFail wa (transform_data l) dest).state

/-- `_validate_cli_date`: `datetime.strptime(date_str, "%Y-%m-%d")`.  The
format requires three dash-separated all-digit fields of at most 4/2/2 digits
naming a valid calendar date; anything else raises a `ValueError`. -/
def isLeapYear (y : Nat) : Bool :=
  (y % 4 = 0 && y % 100 ≠ 0) || y % 400 = 0

/-- Days of month `m` in year `y` (proleptic Gregorian, as `datetime`). -/
def daysInMonth (y m : Nat) : Nat :=
  if m = 2 then (if isLeapYear y then 29 else 28)
  else if m = 4 ∨ m = 6 ∨ m = 9 ∨ m = 11 then 30
  else 31

/-- Split a character list on the `-` separators of the date format
(`s.split("-")` over the characters of the argument). -/
def splitDash : List Char → List (List Char)
  | [] => [[]]
  | c :: cs =>
    let r := splitDash cs
    if c = '-' then [] :: r
    else
      match r with
      | [] => [[c]]
      | g :: gs => (c :: g) :: gs

/-- Numeric value of a digit field. -/
def digitsToNat (cs : List Char) : Nat :=
  cs.foldl (fun n c => n * 10 + (c.toNat - 48)) 0

/-- One numeric field of the date format: non-empty, all digits, at most
`maxLen` of them (`%Y` takes up to 4 digits, `%m` and `%d` up to 2). -/
def parseField (cs : List Char) (maxLen : Nat) : Option Nat :=
  if cs.length = 0 ∨ maxLen < cs.length ∨ ¬ (cs.all Char.isDigit) then none
  else some (digitsToNat cs)

/-- `_validate_cli_date` itself: three dash-separated digit fields naming a
valid calendar date, else the `ValueError` of the `except` clause. -/
def _validate_cli_date (s : String) : Except EtlError Date :=
  match splitDash s.data with
  | [ys, ms, ds] =>
    match parseField ys 4, parseField ms 2, parseField ds 2 with
    | some y, some m, some d =>
      if 1 ≤ y ∧ 1 ≤ m ∧ m ≤ 12 ∧ 1 ≤ d ∧ d ≤ daysInMonth y m then .ok ⟨y, m, d⟩
      else .error (.valueError "bad date, expected YYYY-MM-DD")
    | _, _, _ => .error (.valueError "bad date, expected YYYY-MM-DD")
  | _ => .error (.valueError "bad date, expected YYYY-MM-DD")

/-- The collaborators `main` talks to: the configuration, the connection
probe, the destination's row-acceptance check, the per-attempt write-error
oracle, and the source-table snapshot. -/
structure World where
  cfg : DbConfig
  probe : Nat → Except DbErr Unit
  okP : DestRow → Bool
  errF : Nat → Option DbErr
  source : List Record

/-- Outcome of a run of `main`: the process exit code, whether the run ever
reached the `Connecting` stage (i.e. invoked `connect_to_db`), and the final
destination table. -/
structure MainResult where
  exitCode : Nat
  connectingReached : Bool
  dest : List DestRow
deriving DecidableEq

/-- `main`: usage check, cutoff validation (before any connection), connect,
then the chunked or the whole-table pipeline depending on `ETL_CHUNKSIZE`
(default 5000, `<= 0` disables chunking).  Any failure exits with code 1. -/
def mainRun (argv : List String) (w : World) (dest0 : List DestRow) : MainResult :=
  if argv.length ≠ 1 then ⟨1, false, dest0⟩
  else
    match _validate_cli_date (argv.headD "") with
    | .error _ => ⟨1, false, dest0⟩
    | .ok cutoff =>
      match connect_to_db w.cfg w.probe with
      | (.error _, _) => ⟨1, true, dest0⟩
      | (.ok _, _) =>
        let chunksize : Int := w.cfg.chunksize.getD 5000
        let wa : Nat := w.cfg.write_attempts.getD 3
        if 0 < chunksize then
          match runChunks w.okP w.errF wa
              (extract_books_iter w.source cutoff chunksize.toNat) dest0 with
          | (d, .ok _) => ⟨0, true, d⟩
          | (d, .error _) => ⟨1, true, d⟩
        else
          match runWhole w.okP w.errF wa w.source cutoff dest0 with
          | (d, .ok _) => ⟨0, true, d⟩
          | (d, .error _) => ⟨1, true, d⟩

/-!  Concrete fixtures used by counterexamples and witnesses. -/

/-- The three-row source batch of the end-to-end scenario: prices
100.00, 999.99 and 499.95 (in cents). -/
def batch3 : List Record :=
  [⟨some 1, "Cheap Book", 10000, "Fiction", 10, ⟨2025, 1, 1⟩⟩,
   ⟨some 2, "Expensive Book", 99999, "Tech", 5, ⟨2025, 1, 1⟩⟩,
   ⟨some 3, "Borderline Book", 49995, "History", 2, ⟨2025, 1, 1⟩⟩]

/-- A transformed row with a non-null `book_id`. -/
def tOne : TransformedRecord := ⟨some 1, "A", "g", 1, ⟨2025, 1, 1⟩, 1000, 100, "budget"⟩

/-- A transformed row with a NULL `book_id`. -/
def tNull : TransformedRecord := ⟨none, "B", "g", 1, ⟨2025, 1, 1⟩, 1000, 100, "budget"⟩

/-- Two transformed rows sharing `book_id = 1` (batch-internal duplicate). -/
def dfDup : List TransformedRecord :=
  [⟨some 1, "New Title", "g", 1, ⟨2025, 1, 1⟩, 1000, 100, "budget"⟩,
   ⟨some 1, "New Title Bis", "g", 1, ⟨2025, 1, 1⟩, 2000, 200, "budget"⟩]

/-- A pre-existing destination row for `book_id = 1` (stale data). -/
def oldRow : DestRow := ⟨some 1, "Old Title", 500, 50, "g", "budget"⟩

/-- A source row with `book_id = 1`. -/
def rOne : Record := ⟨some 1, "A", 1000, "g", 1, ⟨2025, 1, 1⟩⟩

/-- A source row with a NULL `book_id`. -/
def rNull : Record := ⟨none, "B", 1000, "g", 1, ⟨2025, 1, 1⟩⟩

/-- Source snapshot mixing a non-null and a NULL `book_id`. -/
def srcMixed : List Record := [rOne, rNull]

/-- A configuration with credentials set (host and name left to defaults). -/
def cfgCreds : DbConfig := { emptyCfg with user := some "u", password := some "p" }

/-- A configuration whose password resolves to the empty string. -/
def cfgNoPw : DbConfig := { emptyCfg with user := some "u" }

/-- An error oracle that makes every transaction attempt fail with a
non-transient `IntegrityError`. -/
def failInt : Nat → Option DbErr := fun _ => some .integrityErr

/-- A world with working credentials, probe and destination. -/
def worldOk : World := ⟨cfgCreds, probeOk, okAll, noFail, srcMixed⟩

/-!  Helper lemmas. -/

lemma tenthsRat_lt_500 (t : Int) : tenthsRat t < 500 ↔ t < 5000 := by
  unfold tenthsRat
  rw [div_lt_iff₀ (by norm_num : (0:ℚ) < 10)]
  have h : (500 : ℚ) * 10 = ((5000 : Int) : ℚ) := by norm_num
  rw [h, Int.cast_lt]

lemma insert_all_ok (rows st : List DestRow) :
    _insert_processed okAll rows st = .ok (st ++ rows) := by
  induction rows generalizing st with
  | nil => simp [_insert_processed]
  | cons r rs ih => simp [_insert_processed, okAll, ih]

lemma insert_ok_shape (okP : DestRow → Bool) (rows : List DestRow) :
    ∀ st s, _insert_processed okP rows st = .ok s → s = st ++ rows := by
  induction rows with
  | nil => intro st s h; simp [_insert_processed] at h; simp [h.symm]
  | cons r rs ih =>
    intro st s h
    unfold _insert_processed at h
    by_cases hok : okP r = true
    · rw [if_pos hok] at h
      simpa [List.append_assoc] using ih (st ++ [r]) s h
    · rw [if_neg hok] at h
      cases h

lemma retryCall_ok_first (trans : ε → Bool) (op : Nat → Except ε α) (a : α)
    (h : op 0 = .ok a) (r : Nat) : retryCall trans op 0 r = (.ok a, 1) := by
  cases r with
  | zero => simp [retryCall, h]
  | succ r => simp [retryCall, h]

lemma retryCall_is_attempt (trans : ε → Bool) (op : Nat → Except ε α) :
    ∀ (r k : Nat), ∃ j, (retryCall trans op k r).1 = op j := by
  intro r
  induction r with
  | zero => intro k; exact ⟨k, rfl⟩
  | succ r ih =>
    intro k
    unfold retryCall
    cases hop : op k with
    | ok a => exact ⟨k, by simp [hop]⟩
    | error e =>
      by_cases hc : trans e = true ∧ 0 < r
      · simpa [hop, hc] using ih (k + 1)
      · exact ⟨k, by simp [hop, hc]⟩

lemma retryCall_const_error_nontransient (trans : ε → Bool) (op : Nat → Except ε α)
    (e : ε) (hop : ∀ j, op j = .error e) (he : trans e = false) (k r : Nat) :
    retryCall trans op k r = (.error e, k + 1) := by
  cases r with
  | zero => simp [retryCall, hop k]
  | succ r => simp [retryCall, hop k, he]

lemma retryCall_const_error_transient (trans : ε → Bool) (op : Nat → Except ε α)
    (e : ε) (hop : ∀ j, op j = .error e) (he : trans e = true) :
    ∀ (r k : Nat), 1 ≤ r → retryCall trans op k r = (.error e, k + r) := by
  intro r
  induction r with
  | zero => intro k h; omega
  | succ r ih =>
    intro k _
    rcases Nat.eq_zero_or_pos r with h0 | hpos
    · subst h0; simp [retryCall, hop k, he]
    · have : retryCall trans op k (r + 1) = retryCall trans op (k + 1) r := by
        simp [retryCall, hop k, he, hpos]
      rw [this, ih (k + 1) hpos]
      have harith : k + 1 + r = k + (r + 1) := by omega
      rw [harith]

lemma load_data_ok_shape (wa : Nat) (df : List TransformedRecord) (dest : List DestRow)
    (hdf : df ≠ []) (hids : uniqueBookIds (df.map toDestRow) ≠ []) :
    load_data okAll noFail wa df dest
      = ⟨_delete_existing_processed (uniqueBookIds (df.map toDestRow)) dest ++ df.map toDestRow,
         .ok df.length, 1⟩ := by
  unfold load_data
  rw [if_neg (by simpa [List.isEmpty_iff] using hdf),
      if_neg (by simpa [List.isEmpty_iff] using hids)]
  have hop : _do_load okAll noFail (uniqueBookIds (df.map toDestRow)) (df.map toDestRow) dest 0
      = .ok (_delete_existing_processed (uniqueBookIds (df.map toDestRow)) dest ++ df.map toDestRow) := by
    unfold _do_load noFail
    exact insert_all_ok _ _
  rw [retryCall_ok_first _ _ _ hop]
  simp

lemma matchesIds_iff (ids : List Int) (row : DestRow) :
    matchesIds ids row = true ↔ ∃ i, row.book_id = some i ∧ i ∈ ids := by
  unfold matchesIds
  cases h : row.book_id with
  | none => simp
  | some i => simp

lemma mem_uniqueBookIds (rows : List DestRow) (i : Int) :
    i ∈ uniqueBookIds rows ↔ i ∈ rows.filterMap (fun r => r.book_id) := by
  unfold uniqueBookIds
  exact List.mem_dedup

lemma matchesIds_unique_append (xs ys : List DestRow) (row : DestRow) :
    matchesIds (uniqueBookIds (xs ++ ys)) row
      = (matchesIds (uniqueBookIds xs) row || matchesIds (uniqueBookIds ys) row) := by
  cases hb : row.book_id with
  | none => simp [matchesIds, hb]
  | some i =>
    simp only [matchesIds, hb]
    rw [← Bool.decide_or]
    apply decide_eq_decide.mpr
    simp [uniqueBookIds, List.mem_dedup, List.filterMap_append]

lemma row_matches_self (rows : List DestRow) (row : DestRow) (i : Int)
    (hmem : row ∈ rows) (hid : row.book_id = some i) :
    matchesIds (uniqueBookIds rows) row = true := by
  rw [matchesIds_iff]
  exact ⟨i, hid, (mem_uniqueBookIds _ _).mpr (List.mem_filterMap.mpr ⟨row, hmem, hid⟩)⟩

lemma uniqueBookIds_map_toDestRow (df : List TransformedRecord) :
    uniqueBookIds (df.map toDestRow) = (df.filterMap (fun t => t.book_id)).dedup := by
  unfold uniqueBookIds
  rw [List.filterMap_map]
  rfl

lemma uniqueBookIds_ne_nil (df : List TransformedRecord) (t : TransformedRecord) (i : Int)
    (hmem : t ∈ df) (hid : t.book_id = some i) :
    uniqueBookIds (df.map toDestRow) ≠ [] := by
  rw [uniqueBookIds_map_toDestRow, Ne, List.dedup_eq_nil]
  intro hnil
  have hmem2 : i ∈ df.filterMap (fun t => t.book_id) :=
    List.mem_filterMap.mpr ⟨t, hmem, hid⟩
  simp [hnil] at hmem2

lemma every_row_matches (df : List TransformedRecord)
    (h : ∀ t ∈ df, t.book_id ≠ none) :
    ∀ row ∈ df.map toDestRow,
      matchesIds (uniqueBookIds (df.map toDestRow)) row = true := by
  intro row hrowmem
  rcases List.mem_map.mp hrowmem with ⟨t, htmem, rfl⟩
  rcases Option.ne_none_iff_exists'.mp (h t htmem) with ⟨i, hi⟩
  exact row_matches_self _ _ i hrowmem hi

lemma do_load_ok_shape (okP : DestRow → Bool) (errF : Nat → Option DbErr)
    (ids : List Int) (rows dest s : List DestRow) (k : Nat)
    (h : _do_load okP errF ids rows dest k = .ok s) :
    s = _delete_existing_processed ids dest ++ rows := by
  unfold _do_load at h
  cases he : errF k with
  | some e => rw [he] at h; cases h
  | none => rw [he] at h; exact insert_ok_shape okP rows _ s h

/-!  Claim theorems. -/

/-- C2: for every record, the transformed `rounded_price` is the source price
rounded to one decimal place, and `price_category` is `"budget"` exactly when
`rounded_price < 500` and `"premium"` otherwise (so exactly 500.0 is
premium). -/
theorem price_category_threshold (r : Record) :
    (transformRecord r).rounded_price = round1 r.price
  ∧ ((transformRecord r).price_category = "budget"
      ↔ tenthsRat (transformRecord r).rounded_price < 500)
  ∧ ((transformRecord r).price_category = "premium"
      ↔ ¬ tenthsRat (transformRecord r).rounded_price < 500) := by
  refine ⟨rfl, ?_, ?_⟩
  · show price_category_of (round1 r.price) = "budget" ↔ tenthsRat (round1 r.price) < 500
    rw [tenthsRat_lt_500]
    unfold price_category_of
    by_cases h : round1 r.price < 5000
    · simp [h]
    · simp [h, show ("premium" : String) ≠ "budget" by decide]
  · show price_category_of (round1 r.price) = "premium" ↔ ¬ tenthsRat (round1 r.price) < 500
    rw [tenthsRat_lt_500]
    unfold price_category_of
    by_cases h : round1 r.price < 5000
    · simp [h, show ("budget" : String) ≠ "premium" by decide]
    · simp [h]

/-- C3: on the scenario batch with prices 100.00, 999.99 and 499.95, the
transform yields rounded prices 100.0, 1000.0 and 500.0 (in tenths: 1000,
10000, 5000) and categories budget/premium/premium — in particular 499.95
rounds up to 500.0 and classifies as premium — and loading the three rows
returns count 3. -/
theorem transform_boundary_prices :
    round1 49995 = 5000
  ∧ tenthsRat (round1 49995) = 500
  ∧ price_category_of (round1 49995) = "premium"
  ∧ (transform_data batch3).map (fun t => t.rounded_price) = [1000, 10000, 5000]
  ∧ (transform_data batch3).map (fun t => tenthsRat t.rounded_price) = [100, 1000, 500]
  ∧ (transform_data batch3).map (fun t => t.price_category) = ["budget", "premium", "premium"]
  ∧ (load_data okAll noFail 3 (transform_data batch3) []).result = .ok 3 := by
  have h4 : (transform_data batch3).map (fun t => t.rounded_price) = [1000, 10000, 5000] := by
    decide
  refine ⟨by decide, ?_, by decide, h4, ?_, by decide, by decide⟩
  · have h : round1 49995 = 5000 := by decide
    rw [h]
    unfold tenthsRat
    norm_num
  · have hcomp : (transform_data batch3).map (fun t => tenthsRat t.rounded_price)
        = ((transform_data batch3).map (fun t => t.rounded_price)).map tenthsRat := by
      rw [List.map_map]
      rfl
    rw [hcomp, h4]
    unfold tenthsRat
    norm_num

/-- C10: `load_data` returns 0, opens no transaction, and leaves the
destination untouched both for an empty batch and for a non-empty batch whose
`book_id`s are all null; a batch containing some non-null `book_id` loads and
returns the full row count of the batch (null-id and duplicate-id rows counted
alongside the rest). -/
theorem load_count_contract (okP : DestRow → Bool) (errF : Nat → Option DbErr)
    (wa : Nat) (df : List TransformedRecord) (dest : List DestRow) :
    load_data okP errF wa [] dest = ⟨dest, .ok 0, 0⟩
  ∧ ((∀ t ∈ df, t.book_id = none) → load_data okP errF wa df dest = ⟨dest, .ok 0, 0⟩)
  ∧ ((∃ t ∈ df, t.book_id ≠ none) →
      (load_data okAll noFail wa df dest).result = .ok df.length) := by
  refine ⟨by simp [load_data], ?_, ?_⟩
  · intro hnull
    have hids : uniqueBookIds (df.map toDestRow) = [] := by
      rw [uniqueBookIds_map_toDestRow, List.dedup_eq_nil]
      exact List.filterMap_eq_nil_iff.mpr (by simpa using hnull)
    by_cases hdf : df = []
    · subst hdf; simp [load_data]
    · unfold load_data
      rw [if_neg (by simpa [List.isEmpty_iff] using hdf), if_pos (by simp [hids])]
  · rintro ⟨t, htmem, htid⟩
    have hdf : df ≠ [] := by
      intro h; subst h; exact absurd htmem (List.not_mem_nil t)
    rcases Option.ne_none_iff_exists'.mp htid with ⟨i, hi⟩
    rw [load_data_ok_shape wa df dest hdf (uniqueBookIds_ne_nil df t i htmem hi)]

/-- Witness for C10: a single all-null batch is a no-op returning 0 with no
transaction, and a mixed batch of two rows (one null id) returns count 2. -/
theorem load_count_contract_witness :
    load_data okAll noFail 3 [tNull] [oldRow] = ⟨[oldRow], .ok 0, 0⟩
  ∧ (load_data okAll noFail 3 [tOne, tNull] [oldRow]).result = .ok 2 :=
  ⟨(load_count_contract okAll noFail 3 [tNull] [oldRow]).2.1 (by decide),
   (load_count_contract okAll noFail 3 [tOne, tNull] [oldRow]).2.2 (by decide)⟩

/-- C9: a successful load appends every row of the batch — rows sharing a
`book_id` included — after deleting only those pre-existing destination rows
whose `book_id` is in the batch's id set; per-row multiplicities of the
incoming batch are preserved (no within-batch dedup). -/
theorem load_inserts_duplicate_rows (df : List TransformedRecord) (dest : List DestRow)
    (wa : Nat) (hdf : df ≠ []) (hids : uniqueBookIds (df.map toDestRow) ≠ []) :
    (load_data okAll noFail wa df dest).state
      = _delete_existing_processed (uniqueBookIds (df.map toDestRow)) dest ++ df.map toDestRow
  ∧ ∀ row : DestRow,
      ((load_data okAll noFail wa df dest).state).count row
        = (_delete_existing_processed (uniqueBookIds (df.map toDestRow)) dest).count row
          + (df.map toDestRow).count row := by
  rw [load_data_ok_shape wa df dest hdf hids]
  exact ⟨rfl, fun row => List.count_append row _ _⟩

/-- Witness for C9: a two-row batch duplicated on `book_id = 1` replaces the
stale destination row and inserts both batch rows. -/
theorem load_inserts_duplicate_rows_witness :
    (load_data okAll noFail 3 dfDup [oldRow]).state
        = _delete_existing_processed (uniqueBookIds (dfDup.map toDestRow)) [oldRow]
          ++ dfDup.map toDestRow
  ∧ (load_data okAll noFail 3 dfDup [oldRow]).state.count (toDestRow (dfDup.headD tNull)) = 1 :=
  ⟨(load_inserts_duplicate_rows dfDup [oldRow] 3 (by decide) (by decide)).1,
   by decide⟩

/-- C4: each `load_data` call is all-or-nothing: on failure the destination is
exactly the pre-load state (delete and partial inserts rolled back), and in
general the final state is either untouched or exactly the
delete-then-full-insert image with the full count returned. -/
theorem load_all_or_nothing (okP : DestRow → Bool) (errF : Nat → Option DbErr)
    (wa : Nat) (df : List TransformedRecord) (dest : List DestRow) :
    (exceptIsOk (load_data okP errF wa df dest).result = false
      → (load_data okP errF wa df dest).state = dest)
  ∧ ((load_data okP errF wa df dest).state = dest
      ∨ ((load_data okP errF wa df dest).state
            = _delete_existing_processed (uniqueBookIds (df.map toDestRow)) dest
              ++ df.map toDestRow
          ∧ (load_data okP errF wa df dest).result = .ok df.length)) := by
  unfold load_data
  by_cases hdf : df.isEmpty
  · rw [if_pos hdf]; exact ⟨fun _ => rfl, Or.inl rfl⟩
  · rw [if_neg hdf]
    by_cases hids : (uniqueBookIds (df.map toDestRow)).isEmpty
    · rw [if_pos hids]; exact ⟨fun _ => rfl, Or.inl rfl⟩
    · rw [if_neg hids]
      rcases hrc : retryCall isTransient
          (_do_load okP errF (uniqueBookIds (df.map toDestRow)) (df.map toDestRow) dest)
          0 wa with ⟨res, a⟩
      cases res with
      | error e => simp [hrc]
      | ok s =>
        obtain ⟨j, hj⟩ := retryCall_is_attempt isTransient
          (_do_load okP errF (uniqueBookIds (df.map toDestRow)) (df.map toDestRow) dest) wa 0
        rw [hrc] at hj
        have hs := do_load_ok_shape okP errF _ _ _ s j hj.symm
        simp [hrc, hs, exceptIsOk]

/-- Witness for C4: a batch whose every transaction attempt fails with an
`IntegrityError` leaves the seeded destination row untouched. -/
theorem load_all_or_nothing_witness :
    (load_data okAll failInt 3 [tOne] [oldRow]).state = [oldRow] :=
  (load_all_or_nothing okAll failInt 3 [tOne] [oldRow]).1 (by decide)

/-- C1 counterexample: re-loading the batch `[tOne, tNull]` is not idempotent
— the NULL-`book_id` row is never deleted but is re-inserted, so two loads
leave a different destination than one. -/
theorem load_twice_differs_on_null_id_batch :
    (load_data okAll noFail 3 [tOne, tNull]
        (load_data okAll noFail 3 [tOne, tNull] []).state).state
      ≠ (load_data okAll noFail 3 [tOne, tNull] []).state := by decide

/-- C1 (amended): for every transformed batch whose rows all carry a non-null
`book_id`, running `load_data` twice in succession leaves the destination in
exactly the state of running it once — the delete-by-id-set step makes the
re-load idempotent. -/
theorem load_idempotent_of_nonnull_ids (wa : Nat) (df : List TransformedRecord)
    (dest : List DestRow) (h : ∀ t ∈ df, t.book_id ≠ none) :
    (load_data okAll noFail wa df (load_data okAll noFail wa df dest).state).state
      = (load_data okAll noFail wa df dest).state := by
  by_cases hdf : df = []
  · subst hdf; simp [load_data]
  · have hhead : ∃ t ∈ df, ∃ i, t.book_id = some i := by
      rcases df with _ | ⟨t, ts⟩
      · exact absurd rfl hdf
      · exact ⟨t, by simp, Option.ne_none_iff_exists'.mp (h t (by simp))⟩
    obtain ⟨t, htmem, i, hi⟩ := hhead
    have hids := uniqueBookIds_ne_nil df t i htmem hi
    rw [load_data_ok_shape wa df dest hdf hids,
        load_data_ok_shape wa df _ hdf hids]
    show _delete_existing_processed (uniqueBookIds (df.map toDestRow))
        (_delete_existing_processed (uniqueBookIds (df.map toDestRow)) dest ++ df.map toDestRow)
        ++ df.map toDestRow
      = _delete_existing_processed (uniqueBookIds (df.map toDestRow)) dest ++ df.map toDestRow
    unfold _delete_existing_processed
    rw [List.filter_append, List.filter_filter]
    have h1 : (dest.filter fun r =>
        (!matchesIds (uniqueBookIds (df.map toDestRow)) r)
          && !matchesIds (uniqueBookIds (df.map toDestRow)) r)
        = dest.filter fun r => !matchesIds (uniqueBookIds (df.map toDestRow)) r := by
      apply List.filter_congr
      intro r _
      exact Bool.and_self _
    have h2 : ((df.map toDestRow).filter
        fun r => !matchesIds (uniqueBookIds (df.map toDestRow)) r) = [] := by
      rw [List.filter_eq_nil_iff]
      intro row hrow
      simp [every_row_matches df h row hrow]
    rw [h1, h2, List.append_nil]

/-- Witness for C1 (amended): loading a singleton batch with `book_id = 1`
twice equals loading it once. -/
theorem load_idempotent_of_nonnull_ids_witness :
    (load_data okAll noFail 3 [tOne] (load_data okAll noFail 3 [tOne] []).state).state
      = (load_data okAll noFail 3 [tOne] []).state :=
  load_idempotent_of_nonnull_ids 3 [tOne] [] (by decide)

lemma required_env_ok_iff (h n u p : String) :
    _required_env h n u p = .ok () ↔ (h ≠ "" ∧ n ≠ "" ∧ u ≠ "" ∧ p ≠ "") := by
  unfold _required_env
  by_cases hh : h = "" <;> by_cases hn : n = "" <;>
    by_cases hu : u = "" <;> by_cases hp : p = "" <;>
      simp [hh, hn, hu, hp, List.filter_cons, List.filter_nil, beq_iff_eq]

lemma connectAttempt_valueError (cfg : DbConfig) (probe : Nat → Except DbErr Unit)
    (hbad : ¬ ((resolveConnParams cfg).host ≠ "" ∧ (resolveConnParams cfg).name ≠ ""
        ∧ (resolveConnParams cfg).user ≠ "" ∧ (resolveConnParams cfg).password ≠ "")) :
    ∃ m, ∀ k, connectAttempt cfg probe k = .error (.valueError m) := by
  cases hre : _required_env (resolveConnParams cfg).host (resolveConnParams cfg).name
      (resolveConnParams cfg).user (resolveConnParams cfg).password with
  | ok uu =>
    cases uu
    exact absurd ((required_env_ok_iff _ _ _ _).mp hre) hbad
  | error m =>
    refine ⟨m, fun k => ?_⟩
    unfold connectAttempt
    rw [hre]

lemma connectAttempt_no_valueError (cfg : DbConfig) (probe : Nat → Except DbErr Unit)
    (hok : _required_env (resolveConnParams cfg).host (resolveConnParams cfg).name
        (resolveConnParams cfg).user (resolveConnParams cfg).password = .ok ()) :
    ∀ k m, connectAttempt cfg probe k ≠ .error (.valueError m) := by
  intro k m
  unfold connectAttempt
  rw [hok]
  cases probe k <;> simp

/-- C7 counterexample: with `DB_HOST` absent (and the remaining required
parameters set non-empty) `connect_to_db` succeeds on the first attempt, so
absence of a required parameter does not imply a configuration failure. -/
theorem connect_ok_with_absent_host :
    ({ emptyCfg with name := some "db", user := some "u", password := some "p" } : DbConfig).host
        = none
  ∧ connect_to_db { emptyCfg with name := some "db", user := some "u", password := some "p" }
        probeOk
      = (.ok (resolveConnParams
          { emptyCfg with name := some "db", user := some "u", password := some "p" }), 1) :=
  ⟨rfl, by decide⟩

/-- C7 (amended): `connect_to_db` fails with a `ValueError`, without retrying,
exactly when one of the four resolved connection parameters is the empty
string.  An absent host or database name resolves to the non-empty defaults
`"localhost"` / `"books_db"`, so absence alone causes the failure only for
user and password. -/
theorem connect_fails_iff_resolved_param_empty (cfg : DbConfig)
    (probe : Nat → Except DbErr Unit) :
    (((resolveConnParams cfg).host = "" ∨ (resolveConnParams cfg).name = ""
        ∨ (resolveConnParams cfg).user = "" ∨ (resolveConnParams cfg).password = "")
      → ∃ m, connect_to_db cfg probe = (.error (.valueError m), 1))
  ∧ ((resolveConnParams cfg).host ≠ "" → (resolveConnParams cfg).name ≠ ""
      → (resolveConnParams cfg).user ≠ "" → (resolveConnParams cfg).password ≠ ""
      → ∀ m, (connect_to_db cfg probe).1 ≠ .error (.valueError m))
  ∧ (cfg.host = none → (resolveConnParams cfg).host = "localhost")
  ∧ (cfg.name = none → (resolveConnParams cfg).name = "books_db") := by
  refine ⟨?_, ?_, ?_, ?_⟩
  · intro hbad
    have hnot : ¬ ((resolveConnParams cfg).host ≠ "" ∧ (resolveConnParams cfg).name ≠ ""
        ∧ (resolveConnParams cfg).user ≠ "" ∧ (resolveConnParams cfg).password ≠ "") := by
      tauto
    obtain ⟨m, hop⟩ := connectAttempt_valueError cfg probe hnot
    refine ⟨m, ?_⟩
    unfold connect_to_db
    exact retryCall_const_error_nontransient transientEtl _ _ hop rfl 0 3
  · intro h1 h2 h3 h4 m hcontra
    have hok : _required_env (resolveConnParams cfg).host (resolveConnParams cfg).name
        (resolveConnParams cfg).user (resolveConnParams cfg).password = .ok () :=
      (required_env_ok_iff _ _ _ _).mpr ⟨h1, h2, h3, h4⟩
    obtain ⟨j, hj⟩ := retryCall_is_attempt transientEtl (connectAttempt cfg probe) 3 0
    rw [show (connect_to_db cfg probe).1
          = (retryCall transientEtl (connectAttempt cfg probe) 0 3).1 from rfl, hj] at hcontra
    exact connectAttempt_no_valueError cfg probe hok j m hcontra
  · intro h; simp [resolveConnParams, h]
  · intro h; simp [resolveConnParams, h]

/-- Witness for C7 (amended): a configuration with `DB_PASSWORD` absent
(resolving to the empty string) makes `connect_to_db` fail with a
`ValueError` on its first and only attempt. -/
theorem connect_fails_iff_resolved_param_empty_witness :
    ∃ m, connect_to_db cfgNoPw probeOk = (.error (.valueError m), 1) :=
  (connect_fails_iff_resolved_param_empty cfgNoPw probeOk).1 (by decide)

lemma retryCall_second_ok (trans : ε → Bool) (op : Nat → Except ε α) (e : ε) (a : α)
    (h0 : op 0 = .error e) (htr : trans e = true) (h1 : op 1 = .ok a) (r : Nat) :
    retryCall trans op 0 (r + 2) = (.ok a, 2) := by
  have step : retryCall trans op 0 (r + 2) = retryCall trans op 1 (r + 1) := by
    simp [retryCall, h0, htr]
  rw [step]
  cases r with
  | zero => simp [retryCall, h1]
  | succ r => simp [retryCall, h1]

/-- C6: retries happen only on transient error classes, with 3 attempts for
connect and the configured count for load: a non-transient probe error fails
`connect_to_db` after exactly one attempt; persistently transient probe errors
exhaust exactly 3 attempts; a load whose attempts all fail transiently opens
exactly `writeAttempts` transactions and leaves the destination unchanged;
a non-transient load error stops after one transaction; and a load failing
transiently once then succeeding re-runs the whole delete+insert against the
original snapshot. -/
theorem retry_policy_transient_only (cfg : DbConfig)
    (hcfg : _required_env (resolveConnParams cfg).host (resolveConnParams cfg).name
        (resolveConnParams cfg).user (resolveConnParams cfg).password = .ok ())
    (e e' : DbErr) (he : isTransient e = false) (ht : isTransient e' = true)
    (wa : Nat) (df : List TransformedRecord) (dest : List DestRow)
    (hdf : df ≠ []) (hids : uniqueBookIds (df.map toDestRow) ≠ []) :
    connect_to_db cfg (fun _ => .error e) = (.error (.dbError e), 1)
  ∧ connect_to_db cfg (fun _ => .error e') = (.error (.dbError e'), 3)
  ∧ load_data okAll (fun _ => some e') (wa + 1) df dest
      = ⟨dest, .error (.runtimeError e'), wa + 1⟩
  ∧ load_data okAll (fun _ => some e) (wa + 1) df dest
      = ⟨dest, .error (.runtimeError e), 1⟩
  ∧ load_data okAll (fun k => if k = 0 then some e' else none) (wa + 2) df dest
      = ⟨_delete_existing_processed (uniqueBookIds (df.map toDestRow)) dest
            ++ df.map toDestRow,
         .ok df.length, 2⟩ := by
  have hopc : ∀ (x : DbErr) (j : Nat),
      connectAttempt cfg (fun _ => .error x) j = .error (.dbError x) := by
    intro x j
    unfold connectAttempt
    rw [hcfg]
  have hopl : ∀ (x : DbErr) (j : Nat),
      _do_load okAll (fun _ => some x) (uniqueBookIds (df.map toDestRow))
          (df.map toDestRow) dest j = .error x := by
    intro x j
    unfold _do_load
    rfl
  refine ⟨?_, ?_, ?_, ?_, ?_⟩
  · unfold connect_to_db
    exact retryCall_const_error_nontransient transientEtl _ _ (hopc e)
      (by simp [transientEtl, he]) 0 3
  · unfold connect_to_db
    simpa using retryCall_const_error_transient transientEtl _ _ (hopc e')
      (by simp [transientEtl, ht]) 3 0 (by omega)
  · unfold load_data
    rw [if_neg (by simpa [List.isEmpty_iff] using hdf),
        if_neg (by simpa [List.isEmpty_iff] using hids)]
    rw [retryCall_const_error_transient isTransient _ _ (hopl e') ht (wa + 1) 0 (by omega)]
    simp
  · unfold load_data
    rw [if_neg (by simpa [List.isEmpty_iff] using hdf),
        if_neg (by simpa [List.isEmpty_iff] using hids)]
    rw [retryCall_const_error_nontransient isTransient _ _ (hopl e) he 0 (wa + 1)]
  · unfold load_data
    rw [if_neg (by simpa [List.isEmpty_iff] using hdf),
        if_neg (by simpa [List.isEmpty_iff] using hids)]
    rw [retryCall_second_ok isTransient _ e'
        (_delete_existing_processed (uniqueBookIds (df.map toDestRow)) dest
          ++ df.map toDestRow)
        (by unfold _do_load; rfl) ht
        (by unfold _do_load; simpa using insert_all_ok (df.map toDestRow) _) wa]
    simp

lemma chunksOfAux_flatten (n : Nat) (hn : n ≠ 0) :
    ∀ (fuel : Nat) (l : List α), l.length ≤ fuel → (chunksOfAux n l fuel).flatten = l := by
  intro fuel
  induction fuel with
  | zero =>
    intro l hl
    rcases l with _ | ⟨a, t⟩
    · rfl
    · simp at hl
  | succ fuel ih =>
    intro l hl
    rcases l with _ | ⟨a, t⟩
    · rfl
    · show (chunksOfAux n (a :: t) (fuel + 1)).flatten = a :: t
      unfold chunksOfAux
      rw [if_neg hn, List.flatten_cons]
      rw [ih ((a :: t).drop n) (by simp at hl ⊢; omega)]
      exact List.take_append_drop n (a :: t)

lemma chunksOf_flatten (n : Nat) (hn : n ≠ 0) (l : List α) : (chunksOf n l).flatten = l :=
  chunksOfAux_flatten n hn l.length l (Nat.le_refl _)

lemma insertRec_perm (a : Record) (l : List Record) : (insertRec a l).Perm (a :: l) := by
  induction l with
  | nil => exact List.Perm.refl _
  | cons b t ih =>
    unfold insertRec
    by_cases h : recordLE a b
    · rw [if_pos h]
    · rw [if_neg h]
      exact (List.Perm.cons b ih).trans (List.Perm.swap a b t)

lemma sortRecords_perm (l : List Record) : (sortRecords l).Perm l := by
  induction l with
  | nil => exact List.Perm.refl _
  | cons a t ih => exact (insertRec_perm a (sortRecords t)).trans (List.Perm.cons a ih)

lemma extract_books_perm (source : List Record) (cutoff : Date) :
    (extract_books source cutoff).Perm
      (source.filter (fun r => dateLE cutoff r.last_updated)) :=
  sortRecords_perm _

lemma extract_books_nonnull (source : List Record) (cutoff : Date)
    (h : ∀ r ∈ source, r.book_id ≠ none) :
    ∀ r ∈ extract_books source cutoff, r.book_id ≠ none := by
  intro r hr
  have hmem : r ∈ source.filter (fun r => dateLE cutoff r.last_updated) :=
    (extract_books_perm source cutoff).mem_iff.mp hr
  exact h r (List.mem_of_mem_filter hmem)

lemma extract_books_nodup_ids (source : List Record) (cutoff : Date)
    (h : (source.filterMap (fun r => r.book_id)).Nodup) :
    ((extract_books source cutoff).filterMap (fun r => r.book_id)).Nodup := by
  have hperm := (extract_books_perm source cutoff).filterMap (fun r => r.book_id)
  have hsub : (source.filter (fun r => dateLE cutoff r.last_updated)).Sublist source :=
    List.filter_sublist _
  have hnodup := List.Nodup.sublist (hsub.filterMap (fun r => r.book_id)) h
  exact hperm.nodup_iff.mpr hnodup

lemma transform_rows_append (c js : List Record) :
    (transform_data (c ++ js)).map toDestRow
      = (transform_data c).map toDestRow ++ (transform_data js).map toDestRow := by
  simp [transform_data]

lemma transform_ne_nil (c : List Record) (hc : c ≠ []) : transform_data c ≠ [] := by
  simpa [transform_data] using hc

lemma idsOf_ne_nil (l : List Record) (hl : l ≠ []) (hnn : ∀ r ∈ l, r.book_id ≠ none) :
    uniqueBookIds ((transform_data l).map toDestRow) ≠ [] := by
  rcases l with _ | ⟨c, t⟩
  · exact absurd rfl hl
  · rcases Option.ne_none_iff_exists'.mp (hnn c (by simp)) with ⟨i, hi⟩
    exact uniqueBookIds_ne_nil _ (transformRecord c) i (by simp [transform_data]) hi

lemma rows_filterMap_bid (l : List Record) :
    ((transform_data l).map toDestRow).filterMap (fun r => r.book_id)
      = l.filterMap (fun r => r.book_id) := by
  rw [transform_data, List.map_map, List.filterMap_map]
  rfl

lemma delete_append_dest (ids : List Int) (l1 l2 : List DestRow) :
    _delete_existing_processed ids (l1 ++ l2)
      = _delete_existing_processed ids l1 ++ _delete_existing_processed ids l2 := by
  unfold _delete_existing_processed
  simp [List.filter_append]

lemma rows_filter_out_disjoint (c js : List Record)
    (hdisj : ∀ i ∈ c.filterMap (fun r => r.book_id),
        i ∉ js.filterMap (fun r => r.book_id)) :
    _delete_existing_processed (uniqueBookIds ((transform_data js).map toDestRow))
        ((transform_data c).map toDestRow)
      = (transform_data c).map toDestRow := by
  unfold _delete_existing_processed
  rw [List.filter_eq_self]
  intro row hrow
  rcases List.mem_map.mp hrow with ⟨t, htmem, rfl⟩
  rcases List.mem_map.mp htmem with ⟨r, hrmem, rfl⟩
  simp only [Bool.not_eq_true']
  rw [Bool.eq_false_iff]
  intro hm
  rcases (matchesIds_iff _ _).mp hm with ⟨i, hbid, hmemi⟩
  rw [mem_uniqueBookIds, rows_filterMap_bid] at hmemi
  have hbid' : r.book_id = some i := hbid
  exact hdisj i (List.mem_filterMap.mpr ⟨r, hrmem, hbid'⟩) hmemi

lemma delete_append_ids (c js : List Record) (dest : List DestRow) :
    _delete_existing_processed (uniqueBookIds ((transform_data (c ++ js)).map toDestRow)) dest
      = _delete_existing_processed (uniqueBookIds ((transform_data js).map toDestRow))
          (_delete_existing_processed
            (uniqueBookIds ((transform_data c).map toDestRow)) dest) := by
  unfold _delete_existing_processed
  rw [List.filter_filter]
  apply List.filter_congr
  intro r _
  rw [transform_rows_append, matchesIds_unique_append]
  cases matchesIds (uniqueBookIds ((transform_data c).map toDestRow)) r <;>
    cases matchesIds (uniqueBookIds ((transform_data js).map toDestRow)) r <;> rfl

lemma wholeF_comp (wa : Nat) (c js : List Record) (dest : List DestRow)
    (hcne : c ≠ [])
    (hnn : ∀ r ∈ c ++ js, r.book_id ≠ none)
    (hnd : ((c ++ js).filterMap (fun r => r.book_id)).Nodup) :
    wholeF wa js ((load_data okAll noFail wa (transform_data c) dest).state)
      = wholeF wa (c ++ js) dest := by
  have hnnc : ∀ r ∈ c, r.book_id ≠ none := fun r hr => hnn r (List.mem_append_left _ hr)
  have hnnjs : ∀ r ∈ js, r.book_id ≠ none := fun r hr => hnn r (List.mem_append_right _ hr)
  have hidsc := idsOf_ne_nil c hcne hnnc
  have hcjsne : c ++ js ≠ [] := by simp [hcne]
  rw [load_data_ok_shape wa _ dest (transform_ne_nil c hcne) hidsc]
  by_cases hjs : js = []
  · subst hjs
    unfold wholeF
    rw [List.append_nil, if_pos (show (List.isEmpty ([] : List Record)) = true from rfl),
        if_neg (by simpa [List.isEmpty_iff] using hcne),
        load_data_ok_shape wa _ dest (transform_ne_nil c hcne) hidsc]
  · have hidsjs := idsOf_ne_nil js hjs hnnjs
    have hdisj : ∀ i ∈ c.filterMap (fun r => r.book_id),
        i ∉ js.filterMap (fun r => r.book_id) := by
      rw [List.filterMap_append] at hnd
      exact fun i hi hj => (List.disjoint_of_nodup_append hnd) hi hj
    unfold wholeF
    rw [if_neg (by simpa [List.isEmpty_iff] using hjs),
        if_neg (by simpa [List.isEmpty_iff] using hcjsne),
        load_data_ok_shape wa _ _ (transform_ne_nil js hjs) hidsjs,
        load_data_ok_shape wa _ dest (transform_ne_nil (c ++ js) hcjsne)
          (idsOf_ne_nil (c ++ js) hcjsne hnn)]
    show _delete_existing_processed (uniqueBookIds ((transform_data js).map toDestRow))
          (_delete_existing_processed (uniqueBookIds ((transform_data c).map toDestRow)) dest
            ++ (transform_data c).map toDestRow)
          ++ (transform_data js).map toDestRow
        = _delete_existing_processed
            (uniqueBookIds ((transform_data (c ++ js)).map toDestRow)) dest
          ++ (transform_data (c ++ js)).map toDestRow
    rw [delete_append_dest, rows_filter_out_disjoint c js hdisj,
        delete_append_ids c js dest, transform_rows_append, List.append_assoc]

lemma runChunks_ok_state (wa : Nat) :
    ∀ (chunks : List (List Record)) (dest : List DestRow),
      (∀ r ∈ chunks.flatten, r.book_id ≠ none) →
      ((chunks.flatten).filterMap (fun r => r.book_id)).Nodup →
      (runChunks okAll noFail wa chunks dest).1 = wholeF wa chunks.flatten dest := by
  intro chunks
  induction chunks with
  | nil => intro dest _ _; simp [runChunks, wholeF]
  | cons c cs ih =>
    intro dest hnn hnd
    have hflat : (c :: cs).flatten = c ++ cs.flatten := rfl
    by_cases hc : c = []
    · subst hc
      have hstep : runChunks okAll noFail wa ([] :: cs) dest
          = runChunks okAll noFail wa cs dest := by
        rw [runChunks, if_pos (show (List.isEmpty ([] : List Record)) = true from rfl)]
      rw [hstep]
      exact ih dest (by simpa using hnn) (by simpa using hnd)
    · have hnnc : ∀ r ∈ c, r.book_id ≠ none := fun r hr => hnn r (by simp [hr])
      have hL := load_data_ok_shape wa (transform_data c) dest
        (transform_ne_nil c hc) (idsOf_ne_nil c hc hnnc)
      have hstep : (runChunks okAll noFail wa (c :: cs) dest).1
          = (runChunks okAll noFail wa cs
              ((load_data okAll noFail wa (transform_data c) dest).state)).1 := by
        rw [runChunks, if_neg (by simpa [List.isEmpty_iff] using hc), hL]
        rcases hr2 : runChunks okAll noFail wa cs
            ((⟨_delete_existing_processed
                  (uniqueBookIds ((transform_data c).map toDestRow)) dest
                ++ (transform_data c).map toDestRow,
               .ok (transform_data c).length, 1⟩ : LoadResult).state) with ⟨d2, r2⟩
        cases r2 <;> simp [hr2, hL]
      rw [hstep]
      have hnn' : ∀ r ∈ cs.flatten, r.book_id ≠ none := fun r hr => hnn r (by simp [hr])
      have hnd' : (cs.flatten.filterMap (fun r => r.book_id)).Nodup := by
        rw [hflat, List.filterMap_append] at hnd
        exact List.Nodup.of_append_right hnd
      rw [ih _ hnn' hnd', hflat]
      exact wholeF_comp wa c cs.flatten dest hc
        (by rw [← hflat]; exact hnn) (by rw [← hflat]; exact hnd)

lemma runWhole_state (wa : Nat) (source : List Record) (cutoff : Date)
    (dest : List DestRow) (hnn : ∀ r ∈ source, r.book_id ≠ none) :
    (runWhole okAll noFail wa source cutoff dest).1
      = wholeF wa (extract_books source cutoff) dest := by
  unfold runWhole wholeF
  by_cases hE : (extract_books source cutoff).isEmpty
  · rw [if_pos hE, if_pos hE]
  · rw [if_neg hE, if_neg hE]
    have hEne : extract_books source cutoff ≠ [] := by
      simpa [List.isEmpty_iff] using hE
    have hnnE := extract_books_nonnull source cutoff hnn
    rw [load_data_ok_shape wa _ dest (transform_ne_nil _ hEne) (idsOf_ne_nil _ hEne hnnE)]

/-- C5 counterexample: on a snapshot holding a NULL-`book_id` row next to a
normal one, chunked mode with chunk size 1 and whole-table mode leave
different destination tables — the all-NULL chunk is skipped by `load_data`
while the whole-table load inserts its row. -/
theorem chunked_differs_from_whole_on_null_id :
    (runChunks okAll noFail 3 (extract_books_iter srcMixed ⟨2025, 1, 1⟩ 1) []).1
      ≠ (runWhole okAll noFail 3 srcMixed ⟨2025, 1, 1⟩ []).1 := by decide

/-- C5 (amended): for a source snapshot whose rows all carry pairwise distinct
non-null `book_id`s (the source-table invariant), the chunked mode — for any
chunk size — and the whole-table mode leave identical final destination
tables. -/
theorem chunked_eq_whole_of_unique_nonnull_ids (source : List Record) (cutoff : Date)
    (n wa : Nat) (dest : List DestRow)
    (hnn : ∀ r ∈ source, r.book_id ≠ none)
    (hnd : (source.filterMap (fun r => r.book_id)).Nodup) :
    (runChunks okAll noFail wa (extract_books_iter source cutoff (n + 1)) dest).1
      = (runWhole okAll noFail wa source cutoff dest).1 := by
  have hE_nn := extract_books_nonnull source cutoff hnn
  have hE_nd := extract_books_nodup_ids source cutoff hnd
  have hflat : (chunksOf (n + 1) (extract_books source cutoff)).flatten
      = extract_books source cutoff :=
    chunksOf_flatten (n + 1) (Nat.succ_ne_zero n) _
  rw [extract_books_iter,
      runChunks_ok_state wa _ dest (by rw [hflat]; exact hE_nn) (by rw [hflat]; exact hE_nd),
      hflat, runWhole_state wa source cutoff dest hnn]

/-- Witness for C5 (amended): on the three-row scenario snapshot, chunked mode
with chunk size 2 matches the whole-table mode. -/
theorem chunked_eq_whole_witness :
    (runChunks okAll noFail 3 (extract_books_iter batch3 ⟨2025, 1, 1⟩ 2) []).1
      = (runWhole okAll noFail 3 batch3 ⟨2025, 1, 1⟩ []).1 :=
  chunked_eq_whole_of_unique_nonnull_ids batch3 ⟨2025, 1, 1⟩ 1 3 []
    (by decide) (by decide)

/-- C8: a malformed cutoff string makes the run fail with exit code 1 before
the `Connecting` stage: `connect_to_db` is never invoked and the destination
is untouched. -/
theorem malformed_cutoff_fails_before_connecting (s : String) (w : World)
    (dest0 : List DestRow)
    (h : ∃ m, _validate_cli_date s = .error (.valueError m)) :
    mainRun [s] w dest0 = ⟨1, false, dest0⟩ := by
  obtain ⟨m, hm⟩ := h
  unfold mainRun
  rw [if_neg (by simp)]
  simp [hm]

/-- Witness for C8: the cutoffs `"01-01-2025"` and `"not-a-date"` both fail
fast, with no connection opened. -/
theorem malformed_cutoff_fails_before_connecting_witness :
    mainRun ["01-01-2025"] worldOk [] = ⟨1, false, []⟩
  ∧ mainRun ["not-a-date"] worldOk [] = ⟨1, false, []⟩ :=
  ⟨malformed_cutoff_fails_before_connecting "01-01-2025" worldOk []
      ⟨"bad date, expected YYYY-MM-DD", by decide⟩,
   malformed_cutoff_fails_before_connecting "not-a-date" worldOk []
      ⟨"bad date, expected YYYY-MM-DD", by decide⟩⟩

/-- Witness for C6 at a concrete configuration, batch and error pair
(`IntegrityError` non-transient, `OperationalError` transient). -/
theorem retry_policy_transient_only_witness :
    connect_to_db cfgCreds (fun _ => .error .integrityErr)
        = (.error (.dbError .integrityErr), 1)
  ∧ connect_to_db cfgCreds (fun _ => .error .operational)
        = (.error (.dbError .operational), 3)
  ∧ load_data okAll (fun _ => some .operational) 3 [tOne] []
        = ⟨[], .error (.runtimeError .operational), 3⟩
  ∧ load_data okAll (fun _ => some .integrityErr) 3 [tOne] []
        = ⟨[], .error (.runtimeError .integrityErr), 1⟩
  ∧ load_data okAll (fun k => if k = 0 then some .operational else none) 4 [tOne] []
        = ⟨_delete_existing_processed (uniqueBookIds ([tOne].map toDestRow)) []
              ++ [tOne].map toDestRow,
           .ok 1, 2⟩ :=
  retry_policy_transient_only cfgCreds (by decide) .integrityErr .operational
    (by decide) (by decide) 2 [tOne] [] (by decide) (by decide)

end BooksEtl
